import Mathlib

/-!
# eth-tx-filler: the composition layer of `main.go`

A shallow embedding of `run` and `findWallet` from `main.go`.

* Go strings are Lean strings, Go `int` (64-bit) and `*big.Int` values are
  integers; the `int64` arithmetic of `time.Duration` wraps explicitly.
* Calls into collaborators (`gasprice`, `tx`, the key store, the console,
  `ethclient`, the interrupt channel) are recorded, in program order, as a
  trace of events; what the collaborators answer is given by an `Env`.
* `defer` is an explicit stack that is unwound when `run` returns.
-/

namespace EthTxFiller

/-! ## Go values -/

/-- The bytes of a `common.Address`. -/
abbrev Address := List Nat

/-- An `accounts.Account`: Go compares both fields with `==`. -/
structure Account where
  address : Address
  url : String
deriving DecidableEq, Repr

/-- An `accounts.Wallet`, seen through its `Accounts()` method. -/
structure Wallet where
  url : String
  accounts : List Account
deriving DecidableEq, Repr

/-- An `*ethclient.Client`, identified by the endpoint it was dialled on. -/
structure Client where
  endpoint : String
deriving DecidableEq, Repr

/-- Error values that `run` can return: the ones it builds itself with
`errors.New` and `fmt.Errorf`, and the ones handed back by a collaborator. -/
inductive GoError where
  | errorsNew (msg : String)
  | walletNotFound (addr : Address)
  | external (code : Nat)
deriving DecidableEq, Repr

/-! ## Machine integers and durations -/

/-- Two's-complement wrap of an integer into the `int64` range. -/
def wrapInt64 (n : Int) : Int := (n + 2 ^ 63) % 2 ^ 64 - 2 ^ 63

/-- A value that fits a 64-bit Go `int`. -/
def isInt64 (n : Int) : Prop := -(2 : Int) ^ 63 ≤ n ∧ n < (2 : Int) ^ 63

instance (n : Int) : Decidable (isInt64 n) := by
  unfold isInt64; exact inferInstance

/-- The constant `time.Second`, in nanoseconds. -/
def timeSecond : Int := 1000000000

/-- The expression `time.Duration(n) * time.Second`: an `int64` product. -/
def durationOfSeconds (n : Int) : Int := wrapInt64 (wrapInt64 n * timeSecond)

/-- The expression `big.NewInt(int64(n))`. -/
def bigNewInt (n : Int) : Int := wrapInt64 n

/-! ## `(*big.Int).SetString(s, 10)` -/

/-- A byte in `'0'..'9'`. -/
def isDecimalDigit (c : Char) : Bool := decide ('0' ≤ c) && decide (c ≤ '9')

/-- The digit value `ch - '0'`. -/
def digitValue (c : Char) : Nat := c.toNat - 48

/-- Go `scanSign`: an empty input is an error; one leading `-` or `+` is
consumed, any other byte is put back. -/
def scanSign (s : List Char) : Option (Bool × List Char) :=
  match s with
  | [] => none
  | c :: r =>
    if c = '-' then some (true, r)
    else if c = '+' then some (false, r)
    else some (false, c :: r)

/-- The digit loop of Go `nat.scan` for base 10: consumes decimal digits,
accumulating the value and the digit count, and stops at the first other
byte, which is left unread. -/
def natScan : List Char → Nat → Nat → Nat × Nat × List Char
  | [], acc, count => (acc, count, [])
  | c :: r, acc, count =>
    if isDecimalDigit c then natScan r (acc * 10 + digitValue c) (count + 1)
    else (acc, count, c :: r)

/-- The call `new(big.Int).SetString(s, 10)`: `none` is `ok == false`.
It fails on an empty input, when no digit follows the optional sign, and
when the input is not consumed entirely; zero carries no sign. -/
def bigSetString (s : String) : Option Int :=
  match scanSign s.data with
  | none => none
  | some (neg, r) =>
    match natScan r 0 0 with
    | (abs, count, rest) =>
      if count = 0 then none
      else if rest.isEmpty then
        some (if neg && decide (abs ≠ 0) then -(abs : Int) else (abs : Int))
      else none

/-! ## Command line -/

/-- The flags given on the command line; `none` is a flag left out. -/
structure Args where
  senderAddr : Option String := none
  keystoreDir : Option String := none
  chainID : Option Int := none
  provider : Option String := none
  sendInterval : Option Int := none
  randomizeInterval : Option Int := none
  maxGasPrice : Option String := none
  minGasPrice : Option String := none

/-- The values of the flag variables after `flag.Parse()`. -/
structure Options where
  senderAddr : String
  keystoreDir : String
  chainID : Int
  provider : String
  sendInterval : Int
  randomizeInterval : Int
  maxGasPrice : String
  minGasPrice : String

/-- The flag declarations of `run` with their defaults, then `flag.Parse()`. -/
def flagParse (a : Args) : Options where
  senderAddr := a.senderAddr.getD ""
  keystoreDir := a.keystoreDir.getD ""
  chainID := a.chainID.getD (-1)
  provider := a.provider.getD "http://localhost:8545"
  sendInterval := a.sendInterval.getD 5
  randomizeInterval := a.randomizeInterval.getD 30
  maxGasPrice := a.maxGasPrice.getD "1000"
  minGasPrice := a.minGasPrice.getD "100"

/-! ## Collaborators and traces -/

/-- What the collaborators answer. A failing call yields an error code,
which `run` hands back unchanged as `GoError.external`. -/
structure Env where
  hexToAddress : String → Address
  ksFind : String → Account → Except Nat Account
  ksWallets : String → List Wallet
  promptPassword : Except Nat String
  ksUnlock : String → Account → String → Option Nat
  dial : String → Except Nat Client
  interrupt : Bool

/-- Modelled from the spec: the packages `gasprice` and `tx` of this
repository are not among the sources, so the constructors and the
`Start`/`Stop` methods of the randomizer and the sender are events without
a body. `newRandomizer` carries the three arguments of
`gasprice.NewRandomizer` in call order: the interval, then
`bigMaxGasPrice` (the max of the range), then `bigMinGasPrice` (its min);
`newSender` carries those of `tx.NewSender`, the randomizer apart. The
other events are the calls into the key store, the console, `ethclient`
and the signal channel. -/
inductive Event where
  | newRandomizer (interval : Int) (max : Int) (min : Int)
  | randomizerStart
  | randomizerStop
  | ksFind (dir : String) (query : Account)
  | ksWallets (dir : String)
  | promptPassword
  | ksUnlock (acct : Account) (passphrase : String)
  | dial (url : String)
  | newSender (acct : Account) (wallet : Wallet) (chainID : Int)
      (client : Client) (interval : Int)
  | senderStart
  | senderStop
  | awaitInterrupt
deriving DecidableEq, Repr

/-- How a call of `run` ends: it returns (`none` is a nil error), or it
stays blocked on the signal channel. -/
inductive Outcome where
  | returned (err : Option GoError)
  | blocked
deriving DecidableEq, Repr

/-- The outcome of `run` together with the calls it made, in order. -/
structure Result where
  outcome : Outcome
  trace : List Event
deriving DecidableEq, Repr

/-- Returning from `run`: the deferred calls run, last deferred first
(`defers` is the stack, its head the most recent `defer`). -/
def returnWith (trace defers : List Event) (err : Option GoError) : Result :=
  ⟨Outcome.returned err, trace ++ defers⟩

/-! ## `findWallet` -/

/-- The function `findWallet`, applied to the list `ks.Wallets()`. -/
def findWallet (wallets : List Wallet) (acct : Account) : Except GoError Wallet :=
  match wallets with
  | [] => Except.error (GoError.walletNotFound acct.address)
  | w :: rest =>
    match w.accounts with
    | [] => findWallet rest acct
    | a :: _ => if a = acct then Except.ok w else findWallet rest acct

/-! ## `run` -/

/-- Lines 36 to 68 of `run`: the checks on the flag values, in source
order. On success it yields `(bigMaxGasPrice, bigMinGasPrice)`. -/
def validate (o : Options) : Except GoError (Int × Int) :=
  if o.senderAddr = "" then Except.error (GoError.errorsNew "need -senderAddr")
  else if o.keystoreDir = "" then Except.error (GoError.errorsNew "need -keystoreDir")
  else if o.chainID = -1 then Except.error (GoError.errorsNew "need -chainID")
  else if o.provider = "" then Except.error (GoError.errorsNew "need -provider")
  else if o.sendInterval ≤ 0 then
    Except.error (GoError.errorsNew "-senderInterval must be > 0")
  else if o.randomizeInterval ≤ 0 then
    Except.error (GoError.errorsNew "-randomizeInterval must be > 0")
  else
    match bigSetString o.maxGasPrice with
    | none => Except.error (GoError.errorsNew "-maxGasPrice must be >= 0")
    | some bigMaxGasPrice =>
      if bigMaxGasPrice < 0 then
        Except.error (GoError.errorsNew "-maxGasPrice must be >= 0")
      else
        match bigSetString o.minGasPrice with
        | none => Except.error (GoError.errorsNew "-minGasPrice must be >= 0")
        | some bigMinGasPrice =>
          if bigMinGasPrice < 0 then
            Except.error (GoError.errorsNew "-minGasPrice must be >= 0")
          else Except.ok (bigMaxGasPrice, bigMinGasPrice)

/-- Lines 70 to 109 of `run`: construction, start-up, the wait for the
interrupt and the deferred stops. -/
def startAndWait (env : Env) (o : Options) (bigMaxGasPrice bigMinGasPrice : Int) :
    Result :=
  let t0 := [Event.newRandomizer (durationOfSeconds o.randomizeInterval)
              bigMaxGasPrice bigMinGasPrice, Event.randomizerStart]
  let d0 := [Event.randomizerStop]
  let query : Account := ⟨env.hexToAddress o.senderAddr, ""⟩
  let t1 := t0 ++ [Event.ksFind o.keystoreDir query]
  match env.ksFind o.keystoreDir query with
  | Except.error e => returnWith t1 d0 (some (GoError.external e))
  | Except.ok acct =>
    let t2 := t1 ++ [Event.ksWallets o.keystoreDir]
    match findWallet (env.ksWallets o.keystoreDir) acct with
    | Except.error e => returnWith t2 d0 (some e)
    | Except.ok wallet =>
      let t3 := t2 ++ [Event.promptPassword]
      match env.promptPassword with
      | Except.error e => returnWith t3 d0 (some (GoError.external e))
      | Except.ok passphrase =>
        let t4 := t3 ++ [Event.ksUnlock acct passphrase]
        match env.ksUnlock o.keystoreDir acct passphrase with
        | some e => returnWith t4 d0 (some (GoError.external e))
        | none =>
          let t5 := t4 ++ [Event.dial o.provider]
          match env.dial o.provider with
          | Except.error e => returnWith t5 d0 (some (GoError.external e))
          | Except.ok client =>
            let t6 := t5 ++ [Event.newSender acct wallet (bigNewInt o.chainID) client
                        (durationOfSeconds o.sendInterval), Event.senderStart]
            let d1 := Event.senderStop :: d0
            let t7 := t6 ++ [Event.awaitInterrupt]
            if env.interrupt then returnWith t7 d1 none
            else ⟨Outcome.blocked, t7⟩

/-- The body of `run` after `flag.Parse()`, on the flag values `o`. -/
def runOptions (env : Env) (o : Options) : Result :=
  match validate o with
  | Except.error e => returnWith [] [] (some e)
  | Except.ok (bigMaxGasPrice, bigMinGasPrice) =>
    startAndWait env o bigMaxGasPrice bigMinGasPrice

/-- The function `run`, on the command line `args`. -/
def run (env : Env) (args : Args) : Result :=
  runOptions env (flagParse args)

/-! ## Sample inputs -/

/-- A key-store account used in the examples. -/
def sampleAccount : Account := ⟨[171, 205], "keystore://ks/key1"⟩

/-- A wallet holding `sampleAccount` first. -/
def sampleWallet : Wallet := ⟨"keystore://ks/key1", [sampleAccount]⟩

/-- Collaborators that all succeed, with the interrupt delivered. -/
def envOk : Env where
  hexToAddress := fun _ => [171, 205]
  ksFind := fun _ _ => Except.ok sampleAccount
  ksWallets := fun _ => [sampleWallet]
  promptPassword := Except.ok "secret"
  ksUnlock := fun _ _ _ => none
  dial := fun url => Except.ok ⟨url⟩
  interrupt := true

/-- Collaborators whose key store does not know the sender address. -/
def envNoAccount : Env where
  hexToAddress := fun _ => [171, 205]
  ksFind := fun _ _ => Except.error 1
  ksWallets := fun _ => []
  promptPassword := Except.ok "secret"
  ksUnlock := fun _ _ _ => none
  dial := fun url => Except.ok ⟨url⟩
  interrupt := true

/-- The three required flags, every other flag left at its default. -/
def argsRequired : Args where
  senderAddr := some "0xabcd"
  keystoreDir := some "ks"
  chainID := some 4

/-- The required flags with a randomize interval whose nanosecond count
does not fit an `int64`. -/
def argsHugeRandomize : Args where
  senderAddr := some "0xabcd"
  keystoreDir := some "ks"
  chainID := some 4
  randomizeInterval := some 9223372037

/-- Flag values that pass the first six checks, with a separator in the
min gas price. -/
def optionsSeparator : Options where
  senderAddr := "0xabcd"
  keystoreDir := "ks"
  chainID := 4
  provider := "http://localhost:8545"
  sendInterval := 5
  randomizeInterval := 30
  maxGasPrice := "1000"
  minGasPrice := "1_000"

/-- Only the three required flags, every other flag left out. -/
def requiredOnly (a k : String) (c : Int) : Args where
  senderAddr := some a
  keystoreDir := some k
  chainID := some c

/-- The required flags with the negative chain id -5. -/
def argsNegativeChain : Args where
  senderAddr := some "0xabcd"
  keystoreDir := some "ks"
  chainID := some (-5)

/-- The required flags with an inverted gas-price range. -/
def argsInverted : Args where
  senderAddr := some "0xabcd"
  keystoreDir := some "ks"
  chainID := some 4
  maxGasPrice := some "100"
  minGasPrice := some "500"

/-- The required flags with a send interval whose nanosecond count does
not fit an `int64`. -/
def argsHugeInterval : Args where
  senderAddr := some "0xabcd"
  keystoreDir := some "ks"
  chainID := some 4
  sendInterval := some 9223372037

/-! ## Vocabulary of the specification -/

/-- The configuration conditions, as the specification lists them. -/
def ValidConfig (o : Options) : Prop :=
  o.senderAddr ≠ "" ∧ o.keystoreDir ≠ "" ∧ o.chainID ≠ -1 ∧ o.provider ≠ "" ∧
  0 < o.sendInterval ∧ 0 < o.randomizeInterval ∧
  (∃ v, bigSetString o.maxGasPrice = some v ∧ 0 ≤ v) ∧
  (∃ v, bigSetString o.minGasPrice = some v ∧ 0 ≤ v)

/-- Every setup step succeeds, with the given results. -/
def SetupSucceeds (env : Env) (o : Options) (acct : Account) (wallet : Wallet)
    (passphrase : String) (client : Client) : Prop :=
  env.ksFind o.keystoreDir ⟨env.hexToAddress o.senderAddr, ""⟩ = Except.ok acct ∧
  findWallet (env.ksWallets o.keystoreDir) acct = Except.ok wallet ∧
  env.promptPassword = Except.ok passphrase ∧
  env.ksUnlock o.keystoreDir acct passphrase = none ∧
  env.dial o.provider = Except.ok client

/-- Some setup step fails with error `e`, the steps before it having
succeeded: `ks.Find`, `findWallet`, the passphrase prompt, `ks.Unlock` or
`ethclient.Dial`. -/
def SetupFails (env : Env) (o : Options) (e : GoError) : Prop :=
  (∃ c, env.ksFind o.keystoreDir ⟨env.hexToAddress o.senderAddr, ""⟩ = Except.error c ∧
      e = GoError.external c) ∨
  (∃ acct, env.ksFind o.keystoreDir ⟨env.hexToAddress o.senderAddr, ""⟩ = Except.ok acct ∧
      findWallet (env.ksWallets o.keystoreDir) acct = Except.error e) ∨
  (∃ acct wallet c,
      env.ksFind o.keystoreDir ⟨env.hexToAddress o.senderAddr, ""⟩ = Except.ok acct ∧
      findWallet (env.ksWallets o.keystoreDir) acct = Except.ok wallet ∧
      env.promptPassword = Except.error c ∧ e = GoError.external c) ∨
  (∃ acct wallet passphrase c,
      env.ksFind o.keystoreDir ⟨env.hexToAddress o.senderAddr, ""⟩ = Except.ok acct ∧
      findWallet (env.ksWallets o.keystoreDir) acct = Except.ok wallet ∧
      env.promptPassword = Except.ok passphrase ∧
      env.ksUnlock o.keystoreDir acct passphrase = some c ∧ e = GoError.external c) ∨
  (∃ acct wallet passphrase c,
      env.ksFind o.keystoreDir ⟨env.hexToAddress o.senderAddr, ""⟩ = Except.ok acct ∧
      findWallet (env.ksWallets o.keystoreDir) acct = Except.ok wallet ∧
      env.promptPassword = Except.ok passphrase ∧
      env.ksUnlock o.keystoreDir acct passphrase = none ∧
      env.dial o.provider = Except.error c ∧ e = GoError.external c)

/-- The start, stop and wait calls among the events. -/
def isLifecycle : Event → Bool
  | Event.randomizerStart => true
  | Event.randomizerStop => true
  | Event.senderStart => true
  | Event.senderStop => true
  | Event.awaitInterrupt => true
  | _ => false

/-- The calls of the setup steps: `ks.Find`, `ks.Wallets` (inside
`findWallet`), the passphrase prompt, `ks.Unlock` and `ethclient.Dial`. -/
def isSetupCall : Event → Bool
  | Event.ksFind _ _ => true
  | Event.ksWallets _ => true
  | Event.promptPassword => true
  | Event.ksUnlock _ _ => true
  | Event.dial _ => true
  | _ => false

/-- The lifecycle calls of a trace, in order. -/
def lifecycle (t : List Event) : List Event := t.filter isLifecycle

/-- The call `gasprice.NewRandomizer` was reached. -/
def reachesNewRandomizer (r : Result) : Prop :=
  ∃ iv mx mn, Event.newRandomizer iv mx mn ∈ r.trace

/-- The first six checks of `run` pass: the ones before the gas prices. -/
def EarlierChecksPass (o : Options) : Prop :=
  o.senderAddr ≠ "" ∧ o.keystoreDir ≠ "" ∧ o.chainID ≠ -1 ∧ o.provider ≠ "" ∧
  0 < o.sendInterval ∧ 0 < o.randomizeInterval

/-- The wallet has a non-empty account list whose first account is `acct`. -/
def holdsFirst (w : Wallet) (acct : Account) : Prop :=
  ∃ rest, w.accounts = acct :: rest

/-- Every character is a decimal digit. -/
def allDigits (s : List Char) : Prop := ∀ c ∈ s, isDecimalDigit c = true

instance (s : List Char) : Decidable (allDigits s) := by
  unfold allDigits; exact inferInstance

/-- The integer denoted by a sequence of decimal digits: the digit at
distance `i` from the end counts `10 ^ i` times. -/
def decimalValue (s : List Char) : Nat := Nat.ofDigits 10 (s.reverse.map digitValue)

/-- The characters after one leading sign, if there is one. -/
def afterSign (s : List Char) : List Char :=
  match s with
  | [] => []
  | c :: r => if c = '-' ∨ c = '+' then r else c :: r

/-- A gas-price string the specification rules out: empty, or with a
character that is not a decimal digit apart from one leading sign, or a
minus sign followed by digits denoting a non-zero value. -/
def Malformed (s : String) : Prop :=
  s.data = [] ∨
  (∃ c ∈ afterSign s.data, isDecimalDigit c = false) ∨
  (∃ ds, s.data = '-' :: ds ∧ ds ≠ [] ∧ allDigits ds ∧ decimalValue ds ≠ 0)

/-! ## Lemmas on `validate` -/

theorem validate_ok_iff (o : Options) (mx mn : Int) :
    validate o = Except.ok (mx, mn) ↔
      o.senderAddr ≠ "" ∧ o.keystoreDir ≠ "" ∧ o.chainID ≠ -1 ∧ o.provider ≠ "" ∧
      0 < o.sendInterval ∧ 0 < o.randomizeInterval ∧
      (bigSetString o.maxGasPrice = some mx ∧ 0 ≤ mx) ∧
      (bigSetString o.minGasPrice = some mn ∧ 0 ≤ mn) := by
  unfold validate
  split_ifs with h1 h2 h3 h4 h5 h6
  · simp [h1]
  · simp [h2]
  · simp [h3]
  · simp [h4]
  · simp [not_lt.mpr h5]
  · simp [not_lt.mpr h6]
  · have h5p := not_le.mp h5
    have h6p := not_le.mp h6
    cases hmx : bigSetString o.maxGasPrice with
    | none => simp
    | some a =>
      by_cases ha : a < 0
      · simp [ha]
        intro _ _ _ _ _ _ h; omega
      · cases hmn : bigSetString o.minGasPrice with
        | none => simp [ha]
        | some b =>
          by_cases hb : b < 0
          · simp [ha, hb]
            intro _ _ _ _ _ _ _ _ h; omega
          · simp [ha, hb, h1, h2, h3, h4, h5p, h6p]
            constructor
            · rintro ⟨rfl, rfl⟩; exact ⟨⟨rfl, by omega⟩, rfl, by omega⟩
            · rintro ⟨⟨rfl, _⟩, rfl, _⟩; exact ⟨rfl, rfl⟩

theorem validate_ok_iff_valid (o : Options) :
    (∃ p, validate o = Except.ok p) ↔ ValidConfig o := by
  constructor
  · rintro ⟨⟨mx, mn⟩, h⟩
    obtain ⟨a, b, c, d, e, f, g, k⟩ := (validate_ok_iff o mx mn).mp h
    exact ⟨a, b, c, d, e, f, ⟨mx, g⟩, ⟨mn, k⟩⟩
  · rintro ⟨a, b, c, d, e, f, ⟨mx, g⟩, ⟨mn, k⟩⟩
    exact ⟨(mx, mn), (validate_ok_iff o mx mn).mpr ⟨a, b, c, d, e, f, g, k⟩⟩

/-! ## Lemmas on `startAndWait` -/

theorem startAndWait_setup_fails (env : Env) (o : Options) (mx mn : Int) (e : GoError)
    (h : SetupFails env o e) :
    (startAndWait env o mx mn).outcome = Outcome.returned (some e) ∧
    lifecycle (startAndWait env o mx mn).trace =
      [Event.randomizerStart, Event.randomizerStop] ∧
    Event.senderStart ∉ (startAndWait env o mx mn).trace := by
  unfold SetupFails at h
  rcases h with ⟨c, h1, rfl⟩ | ⟨acct, h1, h2⟩ | ⟨acct, w, c, h1, h2, h3, rfl⟩ |
    ⟨acct, w, pw, c, h1, h2, h3, h4, rfl⟩ | ⟨acct, w, pw, c, h1, h2, h3, h4, h5, rfl⟩ <;>
  simp [startAndWait, returnWith, lifecycle, isLifecycle, List.filter, *]

theorem startAndWait_setup_fails_shape (env : Env) (o : Options) (mx mn : Int)
    (e : GoError) (h : SetupFails env o e) :
    ∃ mid, (startAndWait env o mx mn).trace =
        Event.newRandomizer (durationOfSeconds o.randomizeInterval) mx mn ::
          Event.randomizerStart :: (mid ++ [Event.randomizerStop]) ∧
      mid.head? = some (Event.ksFind o.keystoreDir ⟨env.hexToAddress o.senderAddr, ""⟩) ∧
      ∀ ev ∈ mid, isSetupCall ev = true := by
  unfold SetupFails at h
  rcases h with ⟨c, h1, rfl⟩ | ⟨acct, h1, h2⟩ | ⟨acct, w, c, h1, h2, h3, rfl⟩ |
    ⟨acct, w, pw, c, h1, h2, h3, h4, rfl⟩ | ⟨acct, w, pw, c, h1, h2, h3, h4, h5, rfl⟩
  · refine ⟨[Event.ksFind o.keystoreDir ⟨env.hexToAddress o.senderAddr, ""⟩], ?_, rfl, ?_⟩
    · simp [startAndWait, returnWith, h1]
    · simp [isSetupCall]
  · refine ⟨[Event.ksFind o.keystoreDir ⟨env.hexToAddress o.senderAddr, ""⟩,
      Event.ksWallets o.keystoreDir], ?_, rfl, ?_⟩
    · simp [startAndWait, returnWith, h1, h2]
    · simp [isSetupCall]
  · refine ⟨[Event.ksFind o.keystoreDir ⟨env.hexToAddress o.senderAddr, ""⟩,
      Event.ksWallets o.keystoreDir, Event.promptPassword], ?_, rfl, ?_⟩
    · simp [startAndWait, returnWith, h1, h2, h3]
    · simp [isSetupCall]
  · refine ⟨[Event.ksFind o.keystoreDir ⟨env.hexToAddress o.senderAddr, ""⟩,
      Event.ksWallets o.keystoreDir, Event.promptPassword,
      Event.ksUnlock acct pw], ?_, rfl, ?_⟩
    · simp [startAndWait, returnWith, h1, h2, h3, h4]
    · simp [isSetupCall]
  · refine ⟨[Event.ksFind o.keystoreDir ⟨env.hexToAddress o.senderAddr, ""⟩,
      Event.ksWallets o.keystoreDir, Event.promptPassword,
      Event.ksUnlock acct pw, Event.dial o.provider], ?_, rfl, ?_⟩
    · simp [startAndWait, returnWith, h1, h2, h3, h4, h5]
    · simp [isSetupCall]

theorem startAndWait_setup_succeeds (env : Env) (o : Options) (mx mn : Int)
    (acct : Account) (wallet : Wallet) (passphrase : String) (client : Client)
    (h : SetupSucceeds env o acct wallet passphrase client) :
    startAndWait env o mx mn =
      if env.interrupt then
        ⟨Outcome.returned none,
          [Event.newRandomizer (durationOfSeconds o.randomizeInterval) mx mn,
           Event.randomizerStart,
           Event.ksFind o.keystoreDir ⟨env.hexToAddress o.senderAddr, ""⟩,
           Event.ksWallets o.keystoreDir,
           Event.promptPassword,
           Event.ksUnlock acct passphrase,
           Event.dial o.provider,
           Event.newSender acct wallet (bigNewInt o.chainID) client
             (durationOfSeconds o.sendInterval),
           Event.senderStart,
           Event.awaitInterrupt,
           Event.senderStop,
           Event.randomizerStop]⟩
      else
        ⟨Outcome.blocked,
          [Event.newRandomizer (durationOfSeconds o.randomizeInterval) mx mn,
           Event.randomizerStart,
           Event.ksFind o.keystoreDir ⟨env.hexToAddress o.senderAddr, ""⟩,
           Event.ksWallets o.keystoreDir,
           Event.promptPassword,
           Event.ksUnlock acct passphrase,
           Event.dial o.provider,
           Event.newSender acct wallet (bigNewInt o.chainID) client
             (durationOfSeconds o.sendInterval),
           Event.senderStart,
           Event.awaitInterrupt]⟩ := by
  obtain ⟨h1, h2, h3, h4, h5⟩ := h
  simp only [startAndWait, h1, h2, h3, h4, h5, returnWith]
  split <;> simp

theorem startAndWait_head (env : Env) (o : Options) (mx mn : Int) :
    (startAndWait env o mx mn).trace.take 2 =
      [Event.newRandomizer (durationOfSeconds o.randomizeInterval) mx mn,
       Event.randomizerStart] := by
  unfold startAndWait
  simp only []
  repeat' split
  all_goals simp [returnWith]

theorem startAndWait_lifecycle (env : Env) (o : Options) (mx mn : Int) :
    ((startAndWait env o mx mn).outcome = Outcome.blocked ∧
      lifecycle (startAndWait env o mx mn).trace =
        [Event.randomizerStart, Event.senderStart, Event.awaitInterrupt]) ∨
    ((startAndWait env o mx mn).outcome = Outcome.returned none ∧
      lifecycle (startAndWait env o mx mn).trace =
        [Event.randomizerStart, Event.senderStart, Event.awaitInterrupt,
         Event.senderStop, Event.randomizerStop]) ∨
    ((∃ e, (startAndWait env o mx mn).outcome = Outcome.returned (some e)) ∧
      lifecycle (startAndWait env o mx mn).trace =
        [Event.randomizerStart, Event.randomizerStop]) := by
  unfold startAndWait
  simp only []
  repeat' split
  all_goals simp [returnWith, lifecycle, isLifecycle, List.filter]

theorem startAndWait_error_is_setup (env : Env) (o : Options) (mx mn : Int) (e : GoError)
    (h : (startAndWait env o mx mn).outcome = Outcome.returned (some e)) :
    SetupFails env o e := by
  revert h
  unfold startAndWait SetupFails
  simp only []
  repeat' split
  all_goals simp_all [returnWith]

theorem startAndWait_newSender (env : Env) (o : Options) (mx mn : Int)
    (acct : Account) (w : Wallet) (c : Int) (cl : Client) (iv : Int)
    (h : Event.newSender acct w c cl iv ∈ (startAndWait env o mx mn).trace) :
    c = bigNewInt o.chainID ∧ iv = durationOfSeconds o.sendInterval := by
  revert h
  unfold startAndWait
  simp only []
  repeat' split
  all_goals simp [returnWith]
  all_goals (intro _ _ h3 _ h5; exact ⟨h3, h5⟩)

theorem wrapInt64_of_isInt64 (n : Int) (h : isInt64 n) : wrapInt64 n = n := by
  unfold isInt64 at h
  unfold wrapInt64
  norm_num at h ⊢
  omega

theorem run_eq_startAndWait (env : Env) (args : Args) (mx mn : Int)
    (h : validate (flagParse args) = Except.ok (mx, mn)) :
    run env args = startAndWait env (flagParse args) mx mn := by
  unfold run runOptions; rw [h]

theorem run_eq_error (env : Env) (args : Args) (e : GoError)
    (h : validate (flagParse args) = Except.error e) :
    run env args = ⟨Outcome.returned (some e), []⟩ := by
  unfold run runOptions; rw [h]; rfl

theorem startAndWait_newRandomizer (env : Env) (o : Options) (mx mn : Int)
    (iv a b : Int)
    (h : Event.newRandomizer iv a b ∈ (startAndWait env o mx mn).trace) :
    iv = durationOfSeconds o.randomizeInterval ∧ a = mx ∧ b = mn := by
  revert h
  unfold startAndWait
  simp only []
  repeat' split
  all_goals simp [returnWith]

/-! ## Lemmas on `bigSetString` -/

theorem decimalValue_cons (c : Char) (r : List Char) :
    decimalValue (c :: r) = digitValue c * 10 ^ r.length + decimalValue r := by
  unfold decimalValue
  simp [Nat.ofDigits_append]
  ring

theorem natScan_allDigits (ds : List Char) (acc cnt : Nat) (h : allDigits ds) :
    natScan ds acc cnt = (acc * 10 ^ ds.length + decimalValue ds, cnt + ds.length, []) := by
  induction ds generalizing acc cnt with
  | nil => simp [natScan, decimalValue]
  | cons c r ih =>
    have hc : isDecimalDigit c = true := h c (by simp)
    have hr : allDigits r := fun x hx => h x (by simp [hx])
    rw [natScan, if_pos hc, ih _ _ hr, decimalValue_cons]
    simp only [List.length_cons, Prod.mk.injEq, and_true]
    constructor
    · ring
    · omega

theorem natScan_nondigit (ds : List Char) (acc cnt : Nat)
    (h : ∃ c ∈ ds, isDecimalDigit c = false) :
    (natScan ds acc cnt).2.2 ≠ [] := by
  induction ds generalizing acc cnt with
  | nil => simp at h
  | cons c r ih =>
    by_cases hc : isDecimalDigit c = true
    · rw [natScan, if_pos hc]
      apply ih
      obtain ⟨x, hx, hxd⟩ := h
      rcases List.mem_cons.mp hx with rfl | hx
      · rw [hc] at hxd; cases hxd
      · exact ⟨x, hx, hxd⟩
    · rw [natScan, if_neg hc]
      simp

theorem scanSign_afterSign (s : List Char) (h : s ≠ []) :
    ∃ neg, scanSign s = some (neg, afterSign s) := by
  cases s with
  | nil => exact absurd rfl h
  | cons c r =>
    by_cases h1 : c = '-'
    · exact ⟨true, by simp [scanSign, afterSign, h1]⟩
    · by_cases h2 : c = '+'
      · exact ⟨false, by simp [scanSign, afterSign, h2]⟩
      · exact ⟨false, by simp [scanSign, afterSign, h1, h2]⟩

theorem bigSetString_digits (s : String) (hne : s.data ≠ []) (hd : allDigits s.data) :
    bigSetString s = some (decimalValue s.data : Int) := by
  unfold bigSetString
  cases hs : s.data with
  | nil => exact absurd hs hne
  | cons c r =>
    have hc : isDecimalDigit c = true := hd c (by simp [hs])
    have h1 : c ≠ '-' := by
      rintro rfl; exact absurd hc (by decide)
    have h2 : c ≠ '+' := by
      rintro rfl; exact absurd hc (by decide)
    have hall : allDigits (c :: r) := hs ▸ hd
    simp [scanSign, h1, h2, natScan_allDigits _ 0 0 hall]

theorem bigSetString_malformed (s : String) (h : Malformed s) :
    bigSetString s = none ∨ ∃ v, bigSetString s = some v ∧ v < 0 := by
  rcases h with h | h | ⟨ds, hs, hne, hd, hv⟩
  · left
    simp [bigSetString, h, scanSign]
  · left
    have hne : s.data ≠ [] := by
      intro h0
      rw [h0] at h
      simp [afterSign] at h
    obtain ⟨neg, hsign⟩ := scanSign_afterSign s.data hne
    have hrest := natScan_nondigit (afterSign s.data) 0 0 h
    unfold bigSetString
    rw [hsign]
    simp only []
    split
    · rfl
    · split
      · rename_i hemp
        exact absurd (List.isEmpty_iff.mp hemp) hrest
      · rfl
  · right
    refine ⟨-(decimalValue ds : Int), ?_, by omega⟩
    have hlen : ds.length ≠ 0 := by
      intro h0; exact hne (List.length_eq_zero.mp h0)
    simp [bigSetString, hs, scanSign, natScan_allDigits _ 0 0 hd, hlen, hv]

theorem validConfig_argsRequired : ValidConfig (flagParse argsRequired) :=
  ⟨by decide, by decide, by decide, by decide, by decide, by decide,
    ⟨1000, by decide, by decide⟩, ⟨100, by decide, by decide⟩⟩

theorem setupSucceeds_envOk (args : Args) :
    SetupSucceeds envOk (flagParse args) sampleAccount sampleWallet "secret"
      ⟨(flagParse args).provider⟩ :=
  ⟨rfl, rfl, rfl, rfl, rfl⟩

/-! ## C1: configuration validation -/

/-- C1. For every combination of option values, `run` reaches
`gasprice.NewRandomizer` exactly when the configuration conditions hold
(the four required values, both intervals positive, both gas prices
parsing in base 10 to an integer that is not negative); in every other
case it returns a non-nil error having made no call at all, so neither
component was constructed or started. -/
theorem run_validation_gate (env : Env) (o : Options) :
    (reachesNewRandomizer (runOptions env o) ↔ ValidConfig o) ∧
    (¬ ValidConfig o →
      (∃ e, (runOptions env o).outcome = Outcome.returned (some e)) ∧
      (runOptions env o).trace = []) := by
  have key : ¬ ValidConfig o →
      (∃ e, (runOptions env o).outcome = Outcome.returned (some e)) ∧
      (runOptions env o).trace = [] := by
    intro hn
    unfold runOptions
    cases hv : validate o with
    | error e => exact ⟨⟨e, rfl⟩, rfl⟩
    | ok p => exact absurd ((validate_ok_iff_valid o).mp ⟨p, hv⟩) hn
  refine ⟨⟨?_, ?_⟩, key⟩
  · intro hr
    by_contra hn
    obtain ⟨iv, mx, mn, hmem⟩ := hr
    rw [(key hn).2] at hmem
    simp at hmem
  · intro hv
    obtain ⟨⟨mx, mn⟩, hp⟩ := (validate_ok_iff_valid o).mpr hv
    refine ⟨durationOfSeconds o.randomizeInterval, mx, mn, ?_⟩
    have hh := startAndWait_head env o mx mn
    have : (runOptions env o).trace = (startAndWait env o mx mn).trace := by
      unfold runOptions; rw [hp]
    rw [this]
    have hsub := List.take_subset 2 (startAndWait env o mx mn).trace
    apply hsub
    rw [hh]; simp

/-- C1, at a concrete input: with no flag given the sender address is
empty, and `run` returns an error without any call. -/
theorem run_validation_gate_witness :
    ¬ ValidConfig (flagParse {}) ∧
    ((∃ e, (runOptions envOk (flagParse {})).outcome = Outcome.returned (some e)) ∧
      (runOptions envOk (flagParse {})).trace = []) :=
  ⟨fun h => h.1 rfl,
   (run_validation_gate envOk (flagParse {})).2 (fun h => h.1 rfl)⟩

/-! ## C2: a failing setup step -/

/-- C2, refuted as stated: with a valid configuration and a key store that
does not know the sender, `randomizer.Start` has been called by the time
`run` returns the error. -/
theorem setup_failure_randomizer_already_started :
    ValidConfig (flagParse argsRequired) ∧
    SetupFails envNoAccount (flagParse argsRequired) (GoError.external 1) ∧
    ¬ (Event.randomizerStart ∉ (run envNoAccount argsRequired).trace ∧
       Event.senderStart ∉ (run envNoAccount argsRequired).trace) := by
  refine ⟨validConfig_argsRequired, Or.inl ⟨1, rfl, rfl⟩, ?_⟩
  decide

/-- C2, amended. When the configuration is valid and a setup step fails,
`run` returns that error and `sender.Start` is never called. The randomizer
is constructed and `randomizer.Start` is called before the setup steps: the
trace is `gasprice.NewRandomizer`, `randomizer.Start`, then the calls of
the setup steps (beginning with `ks.Find`, and nothing but setup calls),
then the deferred `randomizer.Stop` as the last call. So `randomizer.Start`
and `randomizer.Stop` are each called exactly once, and the lifecycle calls
are exactly `randomizer.Start`, `randomizer.Stop`. -/
theorem setup_failure_returns_error (env : Env) (args : Args) (e : GoError)
    (hv : ValidConfig (flagParse args)) (hf : SetupFails env (flagParse args) e) :
    (run env args).outcome = Outcome.returned (some e) ∧
    Event.senderStart ∉ (run env args).trace ∧
    lifecycle (run env args).trace = [Event.randomizerStart, Event.randomizerStop] ∧
    (∃ mx mn mid,
      (run env args).trace =
        Event.newRandomizer (durationOfSeconds (flagParse args).randomizeInterval) mx mn ::
          Event.randomizerStart :: (mid ++ [Event.randomizerStop]) ∧
      mid.head? = some (Event.ksFind (flagParse args).keystoreDir
        ⟨env.hexToAddress (flagParse args).senderAddr, ""⟩) ∧
      ∀ ev ∈ mid, isSetupCall ev = true) ∧
    (run env args).trace.count Event.randomizerStart = 1 ∧
    (run env args).trace.count Event.randomizerStop = 1 ∧
    (∀ ev ∈ (run env args).trace, isSetupCall ev = true →
      (run env args).trace.indexOf Event.randomizerStart <
        (run env args).trace.indexOf ev ∧
      (run env args).trace.indexOf ev <
        (run env args).trace.indexOf Event.randomizerStop) := by
  obtain ⟨⟨mx, mn⟩, hp⟩ := (validate_ok_iff_valid _).mpr hv
  obtain ⟨h1, h2, h3⟩ := startAndWait_setup_fails env (flagParse args) mx mn e hf
  obtain ⟨mid, hmid, hhead, hall⟩ :=
    startAndWait_setup_fails_shape env (flagParse args) mx mn e hf
  have hrun : run env args = startAndWait env (flagParse args) mx mn := by
    unfold run runOptions; rw [hp]
  rw [hrun]
  have hns : Event.randomizerStart ∉ mid := fun hm => by
    have := hall _ hm
    simp [isSetupCall] at this
  have hnp : Event.randomizerStop ∉ mid := fun hm => by
    have := hall _ hm
    simp [isSetupCall] at this
  refine ⟨h1, h3, h2, ⟨mx, mn, mid, hmid, hhead, hall⟩, ?_, ?_, ?_⟩
  · rw [hmid]
    simp [List.count_cons, List.count_append, List.count_eq_zero_of_not_mem hns]
  · rw [hmid]
    simp [List.count_cons, List.count_append, List.count_eq_zero_of_not_mem hnp]
  · intro ev hev hsetup
    rw [hmid] at hev ⊢
    have hne1 : ev ≠ Event.newRandomizer
        (durationOfSeconds (flagParse args).randomizeInterval) mx mn := by
      rintro rfl; simp [isSetupCall] at hsetup
    have hne2 : ev ≠ Event.randomizerStart := by
      rintro rfl; simp [isSetupCall] at hsetup
    have hne3 : ev ≠ Event.randomizerStop := by
      rintro rfl; simp [isSetupCall] at hsetup
    have hevmid : ev ∈ mid := by
      simp [hne1, hne2, hne3] at hev
      exact hev
    have hlt : mid.indexOf ev < mid.length := List.indexOf_lt_length.mpr hevmid
    have hstop : (mid ++ [Event.randomizerStop]).indexOf Event.randomizerStop =
        mid.length := by
      rw [List.indexOf_append_of_not_mem hnp, List.indexOf_cons_self]
      rfl
    have hev2 : (mid ++ [Event.randomizerStop]).indexOf ev = mid.indexOf ev :=
      List.indexOf_append_of_mem hevmid
    have i1 : (Event.newRandomizer
          (durationOfSeconds (flagParse args).randomizeInterval) mx mn ::
        Event.randomizerStart :: (mid ++ [Event.randomizerStop])).indexOf
          Event.randomizerStart = 1 := by
      rw [List.indexOf_cons_ne _ (by simp), List.indexOf_cons_self]
    have i2 : (Event.newRandomizer
          (durationOfSeconds (flagParse args).randomizeInterval) mx mn ::
        Event.randomizerStart :: (mid ++ [Event.randomizerStop])).indexOf ev =
          mid.indexOf ev + 2 := by
      rw [List.indexOf_cons_ne _ (Ne.symm hne1), List.indexOf_cons_ne _ (Ne.symm hne2),
        hev2]
    have i3 : (Event.newRandomizer
          (durationOfSeconds (flagParse args).randomizeInterval) mx mn ::
        Event.randomizerStart :: (mid ++ [Event.randomizerStop])).indexOf
          Event.randomizerStop = mid.length + 2 := by
      rw [List.indexOf_cons_ne _ (by simp), List.indexOf_cons_ne _ (by simp), hstop]
    rw [i1, i2, i3]
    omega

/-- C2 amended, at a concrete input: a key store that does not know the
sender address. -/
theorem setup_failure_returns_error_witness :
    (run envNoAccount argsRequired).outcome =
      Outcome.returned (some (GoError.external 1)) ∧
    Event.senderStart ∉ (run envNoAccount argsRequired).trace ∧
    lifecycle (run envNoAccount argsRequired).trace =
      [Event.randomizerStart, Event.randomizerStop] ∧
    (∃ mx mn mid,
      (run envNoAccount argsRequired).trace =
        Event.newRandomizer
            (durationOfSeconds (flagParse argsRequired).randomizeInterval) mx mn ::
          Event.randomizerStart :: (mid ++ [Event.randomizerStop]) ∧
      mid.head? = some (Event.ksFind (flagParse argsRequired).keystoreDir
        ⟨envNoAccount.hexToAddress (flagParse argsRequired).senderAddr, ""⟩) ∧
      ∀ ev ∈ mid, isSetupCall ev = true) ∧
    (run envNoAccount argsRequired).trace.count Event.randomizerStart = 1 ∧
    (run envNoAccount argsRequired).trace.count Event.randomizerStop = 1 ∧
    (∀ ev ∈ (run envNoAccount argsRequired).trace, isSetupCall ev = true →
      (run envNoAccount argsRequired).trace.indexOf Event.randomizerStart <
        (run envNoAccount argsRequired).trace.indexOf ev ∧
      (run envNoAccount argsRequired).trace.indexOf ev <
        (run envNoAccount argsRequired).trace.indexOf Event.randomizerStop) :=
  setup_failure_returns_error envNoAccount argsRequired (GoError.external 1)
    validConfig_argsRequired (Or.inl ⟨1, rfl, rfl⟩)

/-! ## C3: the lifecycle on interrupt -/

/-- C3. When configuration and setup succeed and the interrupt arrives,
the lifecycle calls of `run` are exactly `randomizer.Start`, `sender.Start`,
the wait for the interrupt, `sender.Stop`, `randomizer.Stop`, in this order
(so `sender.Stop` comes before `randomizer.Stop`), and `run` returns nil. -/
theorem interrupt_lifecycle_order (env : Env) (args : Args)
    (acct : Account) (wallet : Wallet) (passphrase : String) (client : Client)
    (hv : ValidConfig (flagParse args))
    (hs : SetupSucceeds env (flagParse args) acct wallet passphrase client)
    (hi : env.interrupt = true) :
    (run env args).outcome = Outcome.returned none ∧
    lifecycle (run env args).trace =
      [Event.randomizerStart, Event.senderStart, Event.awaitInterrupt,
       Event.senderStop, Event.randomizerStop] ∧
    (run env args).trace.indexOf Event.senderStop <
      (run env args).trace.indexOf Event.randomizerStop := by
  obtain ⟨⟨mx, mn⟩, hp⟩ := (validate_ok_iff_valid _).mpr hv
  have hrun : run env args = startAndWait env (flagParse args) mx mn := by
    unfold run runOptions; rw [hp]
  rw [hrun, startAndWait_setup_succeeds env _ mx mn acct wallet passphrase client hs]
  simp [hi, lifecycle, isLifecycle, List.filter, List.indexOf_cons]

/-- C3, at a concrete input. -/
theorem interrupt_lifecycle_order_witness :
    (run envOk argsRequired).outcome = Outcome.returned none ∧
    lifecycle (run envOk argsRequired).trace =
      [Event.randomizerStart, Event.senderStart, Event.awaitInterrupt,
       Event.senderStop, Event.randomizerStop] ∧
    (run envOk argsRequired).trace.indexOf Event.senderStop <
      (run envOk argsRequired).trace.indexOf Event.randomizerStop :=
  interrupt_lifecycle_order envOk argsRequired sampleAccount sampleWallet "secret"
    ⟨"http://localhost:8545"⟩ validConfig_argsRequired
    (setupSucceeds_envOk argsRequired) rfl

/-! ## C5: start and stop discipline -/

/-- C5. Whenever `run` returns, on any path, each component was started
at most once, was stopped exactly as often as it was started (once if
started, never if not), and if both were started `sender.Stop` comes
before `randomizer.Stop`. -/
theorem start_stop_discipline (env : Env) (args : Args) (err : Option GoError)
    (h : (run env args).outcome = Outcome.returned err) :
    (run env args).trace.count Event.randomizerStart ≤ 1 ∧
    (run env args).trace.count Event.senderStart ≤ 1 ∧
    (run env args).trace.count Event.randomizerStop =
      (run env args).trace.count Event.randomizerStart ∧
    (run env args).trace.count Event.senderStop =
      (run env args).trace.count Event.senderStart ∧
    (Event.randomizerStart ∈ (run env args).trace →
      Event.senderStart ∈ (run env args).trace →
      (run env args).trace.indexOf Event.senderStop <
        (run env args).trace.indexOf Event.randomizerStop) := by
  unfold run runOptions at h ⊢
  cases hv : validate (flagParse args) with
  | error e => simp [returnWith]
  | ok p =>
    obtain ⟨mx, mn⟩ := p
    rw [hv] at h
    simp only [] at h ⊢
    revert h
    unfold startAndWait
    simp only []
    repeat' split
    all_goals simp [returnWith, List.count_cons, List.indexOf_cons]

/-- C5, at a concrete input: the run that ends on the interrupt. -/
theorem start_stop_discipline_witness :
    (run envOk argsRequired).trace.count Event.randomizerStart ≤ 1 ∧
    (run envOk argsRequired).trace.count Event.senderStart ≤ 1 ∧
    (run envOk argsRequired).trace.count Event.randomizerStop =
      (run envOk argsRequired).trace.count Event.randomizerStart ∧
    (run envOk argsRequired).trace.count Event.senderStop =
      (run envOk argsRequired).trace.count Event.senderStart ∧
    (Event.randomizerStart ∈ (run envOk argsRequired).trace →
      Event.senderStart ∈ (run envOk argsRequired).trace →
      (run envOk argsRequired).trace.indexOf Event.senderStop <
        (run envOk argsRequired).trace.indexOf Event.randomizerStop) :=
  start_stop_discipline envOk argsRequired none (by decide)

/-! ## C10: `findWallet` -/

theorem findWallet_error_form (wallets : List Wallet) (acct : Account) (e : GoError)
    (h : findWallet wallets acct = Except.error e) :
    e = GoError.walletNotFound acct.address := by
  induction wallets with
  | nil => simp [findWallet] at h; exact h.symm
  | cons w rest ih =>
    unfold findWallet at h
    split at h
    · exact ih h
    · split at h
      · cases h
      · exact ih h

/-- C10. `findWallet` returns the first wallet, in list order, whose
account list is non-empty and starts with `acct`; it fails, with the
"wallet not found" error for the address of `acct`, exactly when no wallet
of the list is such a wallet; a wallet holding `acct` only at a later
position does not count. -/
theorem findWallet_first_match (wallets : List Wallet) (acct : Account) :
    (∀ w, findWallet wallets acct = Except.ok w ↔
      ∃ pre post, wallets = pre ++ w :: post ∧ holdsFirst w acct ∧
        ∀ v ∈ pre, ¬ holdsFirst v acct) ∧
    (findWallet wallets acct = Except.error (GoError.walletNotFound acct.address) ↔
      ∀ v ∈ wallets, ¬ holdsFirst v acct) ∧
    (∀ e, findWallet wallets acct = Except.error e →
      e = GoError.walletNotFound acct.address) ∧
    (∀ (w : Wallet) (a : Account) (rest : List Account),
      w.accounts = a :: rest → a ≠ acct →
      findWallet [w] acct = Except.error (GoError.walletNotFound acct.address)) := by
  refine ⟨?_, ?_, fun e h => findWallet_error_form wallets acct e h, ?_⟩
  · induction wallets with
    | nil =>
      intro w
      simp [findWallet]
    | cons x rest ih =>
      intro w
      by_cases hx : holdsFirst x acct
      · obtain ⟨tl, htl⟩ := hx
        have hf : findWallet (x :: rest) acct = Except.ok x := by
          simp [findWallet, htl]
        rw [hf]
        constructor
        · intro h
          cases h
          exact ⟨[], rest, rfl, ⟨tl, htl⟩, by simp⟩
        · rintro ⟨pre, post, heq, _, hpre⟩
          cases pre with
          | nil =>
            simp at heq
            rw [heq.1]
          | cons y ys =>
            simp at heq
            exact absurd ⟨tl, heq.1 ▸ htl⟩ (hpre y (by simp))
      · have hf : findWallet (x :: rest) acct = findWallet rest acct := by
          unfold holdsFirst at hx
          conv_lhs => unfold findWallet
          split
          · rfl
          · rename_i a tl hacc
            split
            · rename_i heq
              exact absurd ⟨tl, heq ▸ hacc⟩ hx
            · rfl
        rw [hf, ih w]
        constructor
        · rintro ⟨pre, post, heq, hw, hpre⟩
          refine ⟨x :: pre, post, by simp [heq], hw, ?_⟩
          intro v hv
          rcases List.mem_cons.mp hv with rfl | hv
          · exact hx
          · exact hpre v hv
        · rintro ⟨pre, post, heq, hw, hpre⟩
          cases pre with
          | nil =>
            simp at heq
            exact absurd (heq.1 ▸ hw) hx
          | cons y ys =>
            simp at heq
            exact ⟨ys, post, heq.2, hw, fun v hv => hpre v (by simp [hv])⟩
  · induction wallets with
    | nil => simp [findWallet]
    | cons x rest ih =>
      by_cases hx : holdsFirst x acct
      · obtain ⟨tl, htl⟩ := hx
        have hf : findWallet (x :: rest) acct = Except.ok x := by
          simp [findWallet, htl]
        rw [hf]
        constructor
        · intro h; cases h
        · intro h
          exact absurd ⟨tl, htl⟩ (h x (by simp))
      · have hf : findWallet (x :: rest) acct = findWallet rest acct := by
          unfold holdsFirst at hx
          conv_lhs => unfold findWallet
          split
          · rfl
          · rename_i a tl hacc
            split
            · rename_i heq
              exact absurd ⟨tl, heq ▸ hacc⟩ hx
            · rfl
        rw [hf, ih]
        constructor
        · intro h v hv
          rcases List.mem_cons.mp hv with rfl | hv
          · exact hx
          · exact h v hv
        · intro h v hv
          exact h v (by simp [hv])
  · intro w a rest hacc hne
    simp [findWallet, hacc, hne]

/-- C10, at a concrete input: a wallet holding the account in second
position is skipped, and the wallet after it, which holds it first, is
returned. -/
theorem findWallet_first_match_witness :
    findWallet [⟨"w0", [⟨[1], "u"⟩, sampleAccount]⟩, sampleWallet] sampleAccount =
      Except.ok sampleWallet ∧
    findWallet [⟨"w0", [⟨[1], "u"⟩, sampleAccount]⟩] sampleAccount =
      Except.error (GoError.walletNotFound sampleAccount.address) :=
  ⟨((findWallet_first_match [⟨"w0", [⟨[1], "u"⟩, sampleAccount]⟩, sampleWallet]
      sampleAccount).1 sampleWallet).mpr
      ⟨[⟨"w0", [⟨[1], "u"⟩, sampleAccount]⟩], [], rfl, ⟨[], rfl⟩, by
        intro v hv
        rw [List.mem_singleton] at hv
        subst hv
        rintro ⟨tl, htl⟩
        exact absurd (List.cons.inj htl).1 (by decide)⟩,
   (findWallet_first_match [⟨"w0", [⟨[1], "u"⟩, sampleAccount]⟩] sampleAccount).2.2.2
      ⟨"w0", [⟨[1], "u"⟩, sampleAccount]⟩ ⟨[1], "u"⟩ [sampleAccount] rfl (by decide)⟩

/-! ## C7: the chain identifier -/

/-- C7. For a chain id other than -1, negative ones included, `run` never
returns "need -chainID", every `tx.NewSender` call it makes carries exactly
that chain id, and it makes that call when the configuration is valid and
setup succeeds; a chain id of -1, left at its default or given explicitly,
is rejected with "need -chainID" before any call. -/
theorem chain_id_check (env : Env) (args : Args)
    (hc : isInt64 (flagParse args).chainID) :
    ((flagParse args).chainID ≠ -1 →
      validate (flagParse args) ≠ Except.error (GoError.errorsNew "need -chainID") ∧
      (run env args).outcome ≠
        Outcome.returned (some (GoError.errorsNew "need -chainID")) ∧
      (∀ acct w c cl iv, Event.newSender acct w c cl iv ∈ (run env args).trace →
        c = (flagParse args).chainID)) ∧
    (∀ acct w pw cl, ValidConfig (flagParse args) →
      SetupSucceeds env (flagParse args) acct w pw cl →
      Event.newSender acct w (flagParse args).chainID cl
        (durationOfSeconds (flagParse args).sendInterval) ∈ (run env args).trace) ∧
    ((args.chainID = none ∨ args.chainID = some (-1)) →
      (flagParse args).senderAddr ≠ "" → (flagParse args).keystoreDir ≠ "" →
      run env args =
        ⟨Outcome.returned (some (GoError.errorsNew "need -chainID")), []⟩) := by
  refine ⟨?_, ?_, ?_⟩
  · intro hne
    have hval : validate (flagParse args) ≠
        Except.error (GoError.errorsNew "need -chainID") := by
      unfold validate
      repeat' split
      all_goals simp_all
    refine ⟨hval, ?_, ?_⟩
    · cases hv : validate (flagParse args) with
      | error e =>
        rw [run_eq_error env args e hv]
        intro h
        injection h with h
        injection h with h
        exact hval (by rw [hv, h])
      | ok p =>
        obtain ⟨mx, mn⟩ := p
        rw [run_eq_startAndWait env args mx mn hv]
        intro h
        have hs := startAndWait_error_is_setup env _ mx mn _ h
        unfold SetupFails at hs
        rcases hs with ⟨c, _, h2⟩ | ⟨acct, _, h2⟩ | ⟨_, _, c, _, _, _, h2⟩ |
          ⟨_, _, _, c, _, _, _, _, h2⟩ | ⟨_, _, _, c, _, _, _, _, _, h2⟩
        · cases h2
        · have := findWallet_error_form _ _ _ h2
          cases this
        · cases h2
        · cases h2
        · cases h2
    · intro acct w c cl iv hmem
      cases hv : validate (flagParse args) with
      | error e =>
        rw [run_eq_error env args e hv] at hmem
        simp at hmem
      | ok p =>
        obtain ⟨mx, mn⟩ := p
        rw [run_eq_startAndWait env args mx mn hv] at hmem
        rw [(startAndWait_newSender env _ mx mn acct w c cl iv hmem).1]
        exact wrapInt64_of_isInt64 _ hc
  · intro acct w pw cl hv hs
    obtain ⟨⟨mx, mn⟩, hp⟩ := (validate_ok_iff_valid _).mpr hv
    rw [run_eq_startAndWait env args mx mn hp,
      startAndWait_setup_succeeds env _ mx mn acct w pw cl hs]
    have hb : bigNewInt (flagParse args).chainID = (flagParse args).chainID :=
      wrapInt64_of_isInt64 _ hc
    split <;> simp [hb]
  · intro hcid ha hk
    apply run_eq_error
    have hm : (flagParse args).chainID = -1 := by
      rcases hcid with h | h <;> simp [flagParse, h]
    unfold validate
    simp [ha, hk, hm]

/-- C7, at a concrete input: the negative chain id -5 passes the check
and reaches `tx.NewSender` unchanged. -/
theorem chain_id_check_witness :
    Event.newSender sampleAccount sampleWallet (-5) ⟨"http://localhost:8545"⟩
      (durationOfSeconds 5) ∈
      (run envOk argsNegativeChain).trace :=
  (chain_id_check envOk argsNegativeChain (by decide)).2.1
    sampleAccount sampleWallet "secret" ⟨"http://localhost:8545"⟩
    ⟨by decide, by decide, by decide, by decide, by decide, by decide,
      ⟨1000, by decide, by decide⟩, ⟨100, by decide, by decide⟩⟩
    (setupSucceeds_envOk _)

/-! ## C9: defaults -/

/-- C9. With only the sender address, the key-store directory and a chain
id other than -1 given, validation passes, the provider is
"http://localhost:8545", the randomizer is constructed with an interval of
30 seconds, max 1000 and min 100 (so min is at most max), and after a
successful setup the endpoint dialled is the default provider and the
sender is constructed with an interval of 5 seconds. -/
theorem defaults_configuration (env : Env) (a k : String) (c : Int)
    (ha : a ≠ "") (hk : k ≠ "") (hc : c ≠ -1) :
    ValidConfig (flagParse (requiredOnly a k c)) ∧
    (flagParse (requiredOnly a k c)).provider = "http://localhost:8545" ∧
    (run env (requiredOnly a k c)).trace.take 2 =
      [Event.newRandomizer (30 * timeSecond) 1000 100, Event.randomizerStart] ∧
    (∀ iv mx mn, Event.newRandomizer iv mx mn ∈ (run env (requiredOnly a k c)).trace →
      iv = 30 * timeSecond ∧ mx = 1000 ∧ mn = 100 ∧ mn ≤ mx) ∧
    (∀ acct w pw cl, SetupSucceeds env (flagParse (requiredOnly a k c)) acct w pw cl →
      Event.dial "http://localhost:8545" ∈ (run env (requiredOnly a k c)).trace ∧
      Event.newSender acct w (bigNewInt c) cl (5 * timeSecond) ∈
        (run env (requiredOnly a k c)).trace) := by
  have hmax : bigSetString "1000" = some 1000 := by decide
  have hmin : bigSetString "100" = some 100 := by decide
  have h30 : durationOfSeconds 30 = 30 * timeSecond := by decide
  have h5 : durationOfSeconds 5 = 5 * timeSecond := by decide
  have hvalid : validate (flagParse (requiredOnly a k c)) = Except.ok (1000, 100) := by
    rw [validate_ok_iff]
    have hp : ("http://localhost:8545" : String) ≠ "" := by decide
    have hs : (0 : Int) < 5 := by decide
    have hr : (0 : Int) < 30 := by decide
    exact ⟨ha, hk, hc, hp, hs, hr, ⟨hmax, by decide⟩, ⟨hmin, by decide⟩⟩
  have hrun := run_eq_startAndWait env (requiredOnly a k c) 1000 100 hvalid
  refine ⟨(validate_ok_iff_valid _).mp ⟨_, hvalid⟩, rfl, ?_, ?_, ?_⟩
  · rw [hrun, startAndWait_head]
    exact congrArg (fun d => [Event.newRandomizer d 1000 100, Event.randomizerStart]) h30
  · intro iv mx mn hmem
    rw [hrun] at hmem
    obtain ⟨h1, h2, h3⟩ := startAndWait_newRandomizer env _ 1000 100 iv mx mn hmem
    subst h2 h3
    refine ⟨?_, rfl, rfl, by decide⟩
    rw [h1]; exact h30
  · intro acct w pw cl hs
    rw [hrun, startAndWait_setup_succeeds env _ 1000 100 acct w pw cl hs]
    have hp : (flagParse (requiredOnly a k c)).provider = "http://localhost:8545" := rfl
    have hi : (flagParse (requiredOnly a k c)).sendInterval = 5 := rfl
    have hci : (flagParse (requiredOnly a k c)).chainID = c := rfl
    rw [hp, hi, hci, h5]
    split <;> simp

/-- C9, at a concrete input. -/
theorem defaults_configuration_witness :
    (run envOk (requiredOnly "0xabcd" "ks" 4)).trace.take 2 =
      [Event.newRandomizer (30 * timeSecond) 1000 100, Event.randomizerStart] :=
  (defaults_configuration envOk "0xabcd" "ks" 4 (by decide) (by decide) (by decide)).2.2.1

/-! ## C4: an inverted gas-price range -/

/-- C4, refuted as stated: with min "500" and max "100" and every setup
step succeeding, `randomizer.Start` is called and `run` returns nil. -/
theorem inverted_range_is_started :
    (flagParse argsInverted).minGasPrice = "500" ∧
    (flagParse argsInverted).maxGasPrice = "100" ∧
    (run envOk argsInverted).outcome = Outcome.returned none ∧
    Event.randomizerStart ∈ (run envOk argsInverted).trace := by
  decide

/-- C4, amended. When the two gas prices parse to values with min above
max (max not negative) and the other options are valid, the range is not
rejected: validation passes, `gasprice.NewRandomizer` is called with the
two values and `randomizer.Start` next; an error returned by `run` is then
the error of a failing setup step, and after a successful setup and the
interrupt `run` returns nil. -/
theorem inverted_range_not_checked (env : Env) (args : Args) (mx mn : Int)
    (he : EarlierChecksPass (flagParse args))
    (hmx : bigSetString (flagParse args).maxGasPrice = some mx)
    (hmn : bigSetString (flagParse args).minGasPrice = some mn)
    (h0 : 0 ≤ mx) (hlt : mx < mn) :
    ValidConfig (flagParse args) ∧
    (run env args).trace.take 2 =
      [Event.newRandomizer (durationOfSeconds (flagParse args).randomizeInterval) mx mn,
       Event.randomizerStart] ∧
    (∀ e, (run env args).outcome = Outcome.returned (some e) →
      SetupFails env (flagParse args) e) ∧
    (∀ acct w pw cl, SetupSucceeds env (flagParse args) acct w pw cl →
      env.interrupt = true → (run env args).outcome = Outcome.returned none) := by
  obtain ⟨a1, a2, a3, a4, a5, a6⟩ := he
  have hvalid : validate (flagParse args) = Except.ok (mx, mn) :=
    (validate_ok_iff _ mx mn).mpr
      ⟨a1, a2, a3, a4, a5, a6, ⟨hmx, h0⟩, ⟨hmn, by omega⟩⟩
  have hrun := run_eq_startAndWait env args mx mn hvalid
  refine ⟨(validate_ok_iff_valid _).mp ⟨_, hvalid⟩, ?_, ?_, ?_⟩
  · rw [hrun]; exact startAndWait_head env _ mx mn
  · intro e h
    rw [hrun] at h
    exact startAndWait_error_is_setup env _ mx mn e h
  · intro acct w pw cl hs hi
    rw [hrun, startAndWait_setup_succeeds env _ mx mn acct w pw cl hs]
    simp [hi]

/-- C4 amended, at a concrete input: min 500 above max 100. -/
theorem inverted_range_not_checked_witness :
    (run envOk argsInverted).trace.take 2 =
      [Event.newRandomizer (durationOfSeconds 30) 100 500, Event.randomizerStart] :=
  (inverted_range_not_checked envOk argsInverted 100 500
    ⟨by decide, by decide, by decide, by decide, by decide, by decide⟩
    (by decide) (by decide) (by decide) (by decide)).2.1

/-! ## C6: intervals as durations -/

/-- C6, evaluated at a failing input: the send interval 9223372037 is a
positive 64-bit value and passes validation, and the duration handed to
`tx.NewSender` is the wrapped product, a negative number of nanoseconds
(not 9223372037 seconds); the same value as randomize interval gives
`gasprice.NewRandomizer` the same negative duration. -/
theorem huge_interval_wraps :
    isInt64 9223372037 ∧
    ValidConfig (flagParse argsHugeInterval) ∧
    durationOfSeconds 9223372037 = -9223372036709551616 ∧
    Event.newSender sampleAccount sampleWallet 4 ⟨"http://localhost:8545"⟩
      (-9223372036709551616) ∈ (run envOk argsHugeInterval).trace ∧
    (run envOk argsHugeRandomize).trace.head? =
      some (Event.newRandomizer (-9223372036709551616) 1000 100) := by
  refine ⟨by decide, ?_, by decide, by decide, by decide⟩
  exact ⟨by decide, by decide, by decide, by decide, by decide, by decide,
    ⟨1000, by decide, by decide⟩, ⟨100, by decide, by decide⟩⟩

theorem durationOfSeconds_exact (n : Int) (h0 : 0 < n) (h1 : n ≤ 9223372036) :
    durationOfSeconds n = n * timeSecond ∧ 0 < durationOfSeconds n := by
  have hn : wrapInt64 n = n :=
    wrapInt64_of_isInt64 n (by unfold isInt64; norm_num; omega)
  have hm : wrapInt64 (n * timeSecond) = n * timeSecond :=
    wrapInt64_of_isInt64 _ (by unfold isInt64 timeSecond; norm_num; omega)
  unfold durationOfSeconds
  rw [hn, hm]
  exact ⟨rfl, by unfold timeSecond; omega⟩

/-! ## C8: the gas-price strings -/

/-- C8. A non-empty string of decimal digits, of any length, parses to
exactly the integer it denotes and passes its check. Once the earlier
checks pass, a malformed max gas price (empty, with a character that is not
a digit apart from one leading sign, or negative) makes `run` return
"-maxGasPrice must be >= 0"; with the max gas price accepted, a malformed
min gas price makes it return "-minGasPrice must be >= 0"; and with both
accepted the value of maxGasPrice is the second argument (max) and the
value of minGasPrice the third argument (min) of `gasprice.NewRandomizer`. -/
theorem gas_price_strings (env : Env) (o : Options) (he : EarlierChecksPass o) :
    (∀ s : String, s.data ≠ [] → allDigits s.data →
      bigSetString s = some (decimalValue s.data : Int)) ∧
    (o.maxGasPrice.data ≠ [] → allDigits o.maxGasPrice.data →
      validate o ≠ Except.error (GoError.errorsNew "-maxGasPrice must be >= 0")) ∧
    (o.minGasPrice.data ≠ [] → allDigits o.minGasPrice.data →
      validate o ≠ Except.error (GoError.errorsNew "-minGasPrice must be >= 0")) ∧
    (o.maxGasPrice.data ≠ [] → allDigits o.maxGasPrice.data →
      o.minGasPrice.data ≠ [] → allDigits o.minGasPrice.data →
      (runOptions env o).trace.head? =
        some (Event.newRandomizer (durationOfSeconds o.randomizeInterval)
          (decimalValue o.maxGasPrice.data) (decimalValue o.minGasPrice.data))) ∧
    (Malformed o.maxGasPrice →
      runOptions env o =
        ⟨Outcome.returned (some (GoError.errorsNew "-maxGasPrice must be >= 0")), []⟩) ∧
    ((∃ v, bigSetString o.maxGasPrice = some v ∧ 0 ≤ v) → Malformed o.minGasPrice →
      runOptions env o =
        ⟨Outcome.returned (some (GoError.errorsNew "-minGasPrice must be >= 0")), []⟩) ∧
    (∀ mx mn, bigSetString o.maxGasPrice = some mx → 0 ≤ mx →
      bigSetString o.minGasPrice = some mn → 0 ≤ mn →
      (runOptions env o).trace.head? =
        some (Event.newRandomizer (durationOfSeconds o.randomizeInterval) mx mn)) := by
  obtain ⟨a1, a2, a3, a4, a5, a6⟩ := he
  have a5n : ¬ o.sendInterval ≤ 0 := not_le.mpr a5
  have a6n : ¬ o.randomizeInterval ≤ 0 := not_le.mpr a6
  have hpos : ∀ mx mn, bigSetString o.maxGasPrice = some mx → 0 ≤ mx →
      bigSetString o.minGasPrice = some mn → 0 ≤ mn →
      (runOptions env o).trace.head? =
        some (Event.newRandomizer (durationOfSeconds o.randomizeInterval) mx mn) := by
    intro mx mn h1 h2 h3 h4
    have hv : validate o = Except.ok (mx, mn) :=
      (validate_ok_iff o mx mn).mpr ⟨a1, a2, a3, a4, a5, a6, ⟨h1, h2⟩, ⟨h3, h4⟩⟩
    have hh := startAndWait_head env o mx mn
    have ht : (runOptions env o).trace = (startAndWait env o mx mn).trace := by
      unfold runOptions; rw [hv]
    rw [ht]
    cases htr : (startAndWait env o mx mn).trace with
    | nil => rw [htr] at hh; simp at hh
    | cons x xs =>
      rw [htr] at hh
      simp at hh
      simp [hh.1]
  refine ⟨bigSetString_digits, ?_, ?_, ?_, ?_, ?_, hpos⟩
  · intro hne hd
    have hp := bigSetString_digits _ hne hd
    unfold validate
    simp only [a1, a2, a3, a4, a5n, a6n, if_false, hp]
    have : ¬ ((decimalValue o.maxGasPrice.data : Int) < 0) := by omega
    simp only [this, if_false]
    repeat' split
    all_goals simp
  · intro hne hd
    have hp := bigSetString_digits _ hne hd
    unfold validate
    simp only [a1, a2, a3, a4, a5n, a6n, if_false, hp]
    have : ¬ ((decimalValue o.minGasPrice.data : Int) < 0) := by omega
    repeat' split
    all_goals simp_all
  · intro h1 h2 h3 h4
    exact hpos _ _ (bigSetString_digits _ h1 h2) (by omega)
      (bigSetString_digits _ h3 h4) (by omega)
  · intro hm
    have hv : validate o =
        Except.error (GoError.errorsNew "-maxGasPrice must be >= 0") := by
      unfold validate
      simp only [a1, a2, a3, a4, a5n, a6n, if_false]
      rcases bigSetString_malformed _ hm with h | ⟨v, h, hneg⟩
      · simp [h]
      · simp [h, hneg]
    unfold runOptions
    rw [hv]; rfl
  · rintro ⟨v, hmaxv, hv0⟩ hm
    have hv : validate o =
        Except.error (GoError.errorsNew "-minGasPrice must be >= 0") := by
      unfold validate
      simp only [a1, a2, a3, a4, a5n, a6n, if_false, hmaxv]
      have : ¬ v < 0 := by omega
      simp only [this, if_false]
      rcases bigSetString_malformed _ hm with h | ⟨w, h, hneg⟩
      · simp [h]
      · simp [h, hneg]
    unfold runOptions
    rw [hv]; rfl

/-- C8, at concrete inputs: a thirty-digit max gas price is taken whole,
and a min gas price with a separator is rejected. -/
theorem gas_price_strings_witness :
    bigSetString "123456789012345678901234567890" =
      some (decimalValue "123456789012345678901234567890".data : Int) ∧
    runOptions envOk optionsSeparator =
      ⟨Outcome.returned (some (GoError.errorsNew "-minGasPrice must be >= 0")), []⟩ :=
  ⟨(gas_price_strings envOk (flagParse argsRequired)
      ⟨by decide, by decide, by decide, by decide, by decide, by decide⟩).1
      "123456789012345678901234567890" (by decide) (by decide),
   (gas_price_strings envOk optionsSeparator
      ⟨by decide, by decide, by decide, by decide, by decide, by decide⟩).2.2.2.2.2.1
      ⟨1000, by decide, by decide⟩
      (Or.inr (Or.inl ⟨'_', by decide, by decide⟩))⟩

end EthTxFiller
